import Mathlib

/-!
Verification of the Google Maps coordinate editor widget
(`src/GoogleMapsEditor/ClientResources/googlemaps/Editor.js`).

The development shallowly embeds the widget's coordinate/suggestion state
logic: JavaScript values relevant to the stored coordinate value are an
inductive `JSVal`; the widget methods `_isComplexType`, `_hasCoordinates`,
`isValid`, `_setCoordinatesValue`, `_setMapLocation`,
`_refreshMarkerLocation`, `_clearCoordinates`, `destroy`, and the
asynchronous parts of `_fetchAutocompleteSuggestions` become pure Lean
functions, with the asynchronous interleavings modelled as explicit event
traces folded over an editor state.
-/

set_option maxHeartbeats 1000000

namespace GME

/-- A JavaScript value as far as the widget's coordinate logic observes it:
`undefined`, `null`, `NaN`, a finite number (rationals stand in for JS
doubles; no verified property depends on rounding), a string, or a plain
object with `latitude`/`longitude` properties. -/
inductive JSVal where
  | undef
  | null
  | nan
  | num (q : Rat)
  | str (s : String)
  | obj (latitude longitude : JSVal)
deriving DecidableEq, Repr

/-- JavaScript truthiness of a `JSVal` (`undefined`, `null`, `NaN`, `0` and
`""` are falsy; every object is truthy). -/
def truthy : JSVal → Bool
  | .undef => false
  | .null => false
  | .nan => false
  | .num q => decide (q ≠ 0)
  | .str s => !s.isEmpty
  | .obj _ _ => true

/-- Whether `typeof v === "object"` together with truthiness holds, i.e.
`v` is a non-null object (the `valueToCheck && typeof valueToCheck ===
"object"` test of `_isComplexType`). -/
def isObjectVal : JSVal → Bool
  | .obj _ _ => true
  | _ => false

def dotChar : Char := '.'

def minusChar : Char := '-'

def plusChar : Char := '+'

def commaChar : Char := ','

/-- Value of a list of decimal digit characters. -/
def digitsVal (l : List Char) : Nat :=
  l.foldl (fun n c => n * 10 + (c.toNat - 48)) 0

/-- Parse an unsigned JS numeric literal `digits [ . digits ]` consuming the
whole input (used by `Number(...)` coercion); `none` models `NaN`.
Exponent and hexadecimal forms are not modelled: no verified property
uses them. -/
def parseUnsigned (l : List Char) : Option Rat :=
  let p := l.span (fun c => c.isDigit)
  match p.2 with
  | [] => if p.1.isEmpty then none else some ((digitsVal p.1 : Nat) : Rat)
  | c :: r =>
      if c = dotChar then
        let q := r.span (fun c => c.isDigit)
        if q.2.isEmpty && !(p.1.isEmpty && q.1.isEmpty) then
          some ((digitsVal p.1 : Rat) + (digitsVal q.1 : Rat) / ((10 : Rat) ^ q.1.length))
        else none
      else none

/-- JS `Number(string)` coercion on the modelled subset: trimmed-empty
strings coerce to `0`; otherwise an optionally signed decimal literal must
consume the whole string; `none` models `NaN`. -/
def parseJSNumber (s : String) : Option Rat :=
  let t := s.trim
  if t.isEmpty then some 0
  else
    match t.toList with
    | [] => some 0
    | c :: r =>
        if c = minusChar then (parseUnsigned r).map (fun q => -q)
        else if c = plusChar then parseUnsigned r
        else parseUnsigned (c :: r)

/-- Longest numeric prefix `digits [ . digits ]` of the input, for
`parseFloat` semantics; `none` models `NaN`. -/
def parseFloatPrefix (l : List Char) : Option Rat :=
  let p := l.span (fun c => c.isDigit)
  let fp :=
    match p.2 with
    | c :: r => if c = dotChar then (r.span (fun c => c.isDigit)).1 else []
    | [] => []
  if p.1.isEmpty && fp.isEmpty then none
  else some ((digitsVal p.1 : Rat) + (digitsVal fp : Rat) / ((10 : Rat) ^ fp.length))

/-- JS `parseFloat(string)`: skips leading whitespace, parses an optionally
signed numeric prefix, ignores trailing garbage; `none` models `NaN`. -/
def parseFloatJS (s : String) : Option Rat :=
  match s.trim.toList with
  | [] => none
  | c :: r =>
      if c = minusChar then (parseFloatPrefix r).map (fun q => -q)
      else if c = plusChar then parseFloatPrefix r
      else parseFloatPrefix (c :: r)

/-- JS `Number(v)` coercion of a `JSVal`; `none` models `NaN` (so
`isNaN(v)` is `(jsToNumber v).isNone`). A plain object coerces through
`"[object Object]"` to `NaN`. -/
def jsToNumber : JSVal → Option Rat
  | .undef => none
  | .null => some 0
  | .nan => none
  | .num q => some q
  | .str s => parseJSNumber s
  | .obj _ _ => none

/-- `String.prototype.split` restricted to a single-character separator,
on char lists. `[]` splits to `[[]]`, as in JS where `"".split(",")` is
`[""]`. -/
def splitCharList (sep : Char) : List Char → List (List Char)
  | [] => [[]]
  | c :: cs =>
      let r := splitCharList sep cs
      if c = sep then [] :: r
      else
        match r with
        | h :: t => (c :: h) :: t
        | [] => [[c]]

/-- JS `s.split(sep)` for a one-character separator. -/
def jsSplit (s : String) (sep : Char) : List String :=
  (splitCharList sep s.toList).map (fun l => String.mk l)

/-- `_isComplexType` (Editor.js 205-221): a truthy object value is complex;
otherwise the decision falls back to `this.properties` and then
`this.metadata.properties`, modelled by their array lengths (`none` when
the field is not an array / absent). -/
def isComplexType (value : JSVal) (props meta : Option Nat) : Bool :=
  if truthy value && isObjectVal value then true
  else
    match props with
    | some n => decide (0 < n)
    | none =>
        match meta with
        | some n => decide (0 < n)
        | none => false

/-- `_hasCoordinates` (Editor.js 227-245): falsy value has no coordinates;
for a complex-typed value the object checks run (`typeof !== "undefined"`,
`!== null`, `!isNaN`, `!== 0`, with property access on a non-object
yielding `undefined`); for a simple string value the check is only that
splitting on a comma yields exactly two parts. -/
def hasCoordinates (value : JSVal) (props meta : Option Nat) : Bool :=
  if !truthy value then false
  else if isComplexType value props meta then
    match value with
    | .obj la ln =>
        decide (la ≠ JSVal.undef) && decide (ln ≠ JSVal.undef) &&
        decide (ln ≠ JSVal.null) && decide (la ≠ JSVal.null) &&
        (jsToNumber ln).isSome && (jsToNumber la).isSome &&
        decide (ln ≠ JSVal.num 0) && decide (la ≠ JSVal.num 0)
    | _ => false
  else
    match value with
    | .str s => decide ((jsSplit s commaChar).length = 2)
    | _ => false

/-- `isValid` (Editor.js 192-197): required properties must have
coordinates; optional ones are always valid. -/
def isValidWidget (required : Bool) (value : JSVal) (props meta : Option Nat) : Bool :=
  if required then hasCoordinates value props meta else true

/-- A `google.maps.LatLng`-like location as `_setCoordinatesValue` observes
it: the `.lat()` / `.lng()` accessors may yield `undefined` (`none`). -/
structure Loc where
  latv : Option Rat
  lngv : Option Rat
deriving DecidableEq, Repr

/-- Serialization of a JS number into the delimited `"lat,lng"` string.
The source relies on JS number-to-string coercion; only the shape of the
delimited value matters to the verified properties, never its digits. -/
def jsNumToString (q : Rat) : String :=
  if q.den = 1 then toString q.num else toString q

/-- Result of `_setCoordinatesValue`: the widget's stored value afterwards,
and whether the missing-coordinate error was logged. -/
structure SetCoordsResult where
  value : JSVal
  logged : Bool
deriving DecidableEq, Repr

/-- `_setCoordinatesValue` (Editor.js 650-686): no-op before the widget is
started; a `null` location stores an explicit null pair for complex types
and leaves the computed value `null` otherwise; a location with an
`undefined` coordinate accessor logs an error and writes nothing;
otherwise the value is stored in object or delimited-string form. -/
def setCoordinatesValue (started : Bool) (props meta : Option Nat)
    (loc : Option Loc) (cur : JSVal) : SetCoordsResult :=
  if !started then ⟨cur, false⟩
  else
    match loc with
    | none =>
        if isComplexType cur props meta then ⟨JSVal.obj JSVal.null JSVal.null, false⟩
        else ⟨JSVal.null, false⟩
    | some l =>
        match l.lngv, l.latv with
        | some lng, some lat =>
            if isComplexType cur props meta then
              ⟨JSVal.obj (JSVal.num lat) (JSVal.num lng), false⟩
            else
              ⟨JSVal.str (jsNumToString lat ++ "," ++ jsNumToString lng), false⟩
        | _, _ => ⟨cur, true⟩

/-- Map surface state: whether `_map` is initialized, the marker handle
with its position (`none` = no marker; a `none` coordinate component is a
`NaN` that the provider geometry type received), the map center and zoom.
Provider-side clamping of latitude/longitude in `LatLng` is not modelled:
no verified property concerns coordinate ranges. -/
structure MapState where
  hasMap : Bool
  markerPos : Option (Option Rat × Option Rat)
  center : Option Rat × Option Rat
  zoom : Nat
deriving DecidableEq, Repr

/-- `_setMapLocation` (Editor.js 696-719): no-op without a map; unless
`skipMarker`, the marker is created on first use and repositioned;
optionally recenters and, for a truthy zoom, rezooms. -/
def setMapLocation (st : MapState) (loc : Option Rat × Option Rat)
    (zoom : Option Nat) (center skipMarker : Bool) : MapState :=
  if !st.hasMap then st
  else
    let st1 := if !skipMarker then { st with markerPos := some loc } else st
    let st2 := if center then { st1 with center := loc } else st1
    match zoom with
    | some z => if z = 0 then st2 else { st2 with zoom := z }
    | none => st2

/-- `_refreshMarkerLocation` (Editor.js 726-755): no-op without a map; a
value without coordinates recenters to the default location with
`skipMarker = true`; otherwise the coordinates are read from the object
value (coerced by the provider geometry constructor) or parsed out of the
delimited string with `parseFloat`, and rendered with a marker. -/
def refreshMarkerLocation (st : MapState) (value : JSVal) (props meta : Option Nat)
    (defaultLat defaultLng : Rat) : MapState :=
  if !st.hasMap then st
  else if !hasCoordinates value props meta then
    setMapLocation st (some defaultLat, some defaultLng) none true true
  else
    let loc :=
      if isComplexType value props meta then
        match value with
        | .obj la ln => (jsToNumber la, jsToNumber ln)
        | _ => (none, none)
      else
        match value with
        | .str s =>
            let parts := jsSplit s commaChar
            (parseFloatJS (parts.getD 0 ""), parseFloatJS (parts.getD 1 ""))
        | _ => (none, none)
    setMapLocation st loc none true false

/-- Editor state for the asynchronous-interleaving traces: the widget
fields touched by `_fetchAutocompleteSuggestions`, `_clearCoordinates` and
`destroy`. `issued` records, in order, the autocomplete requests handed to
the provider together with the session-token id each one carried;
`nextToken` numbers the `new AutocompleteSessionToken()` instances. -/
structure EdState where
  started : Bool
  props : Option Nat
  meta : Option Nat
  value : JSVal
  searchText : String
  suggestions : Option (List String)
  dropdownOpen : Bool
  selectedIndex : Int
  sessionToken : Option Nat
  nextToken : Nat
  issued : List (String × Nat)
  typingTimer : Option String
  placesLib : Bool
  marker : Bool
deriving DecidableEq, Repr

/-- `_hideSuggestionsDropdown` (Editor.js 475-480). -/
def hideSuggestionsDropdown (st : EdState) : EdState :=
  { st with dropdownOpen := false, selectedIndex := -1 }

/-- `_showSuggestionsDropdown` (Editor.js 436-469): empties the list,
resets the highlight, hides on an empty result, otherwise shows. -/
def showSuggestionsDropdown (st : EdState) (res : List String) : EdState :=
  let st1 := { st with selectedIndex := -1 }
  if res.isEmpty then hideSuggestionsDropdown st1
  else { st1 with dropdownOpen := true }

/-- Events of the asynchronous trace semantics. `searchIssue` is the
synchronous part of `_fetchAutocompleteSuggestions` up to the provider
fetch; `searchResolve` is its continuation when the provider promise for
the `reqIdx`-th issued request resolves with `res`; `clear` is
`_clearCoordinates`; `destroy` is `destroy`. -/
inductive EdEvent where
  | searchIssue (input : String)
  | searchResolve (reqIdx : Nat) (res : List String)
  | clear
  | destroy
deriving DecidableEq, Repr

/-- Whether an event is a search-response arrival or a destroy. -/
def isResolveOrDestroy : EdEvent → Bool
  | .searchResolve _ _ => true
  | .destroy => true
  | _ => false

/-- One step of the editor under an event, straight from the source:

* `searchIssue` (Editor.js 564-587): empty input hides the dropdown and
  returns; otherwise the places library is (lazily) cached, a session
  token is created only if absent, and the request is issued carrying the
  current token.
* `searchResolve` (Editor.js 588-591): the resumed code unconditionally
  stores the response and shows the dropdown — there is no staleness or
  liveness check at the resume point.
* `clear` (Editor.js 250-260): clears the search text, hides the
  dropdown, removes the marker and stores the null value; it touches
  neither `_sessionToken` nor `_suggestions`.
* `destroy` (Editor.js 778-794): cancels the debounce timer, destroys the
  dropdown element and nulls the token, suggestion and library fields. -/
def applyEv (st : EdState) (e : EdEvent) : EdState :=
  match e with
  | .searchIssue input =>
      if input.isEmpty then hideSuggestionsDropdown st
      else
        let st1 := { st with placesLib := true }
        let st2 :=
          match st1.sessionToken with
          | some _ => st1
          | none => { st1 with sessionToken := some st1.nextToken, nextToken := st1.nextToken + 1 }
        { st2 with issued := st2.issued ++ [(input, st2.sessionToken.getD 0)] }
  | .searchResolve _ res =>
      showSuggestionsDropdown { st with suggestions := some res } res
  | .clear =>
      let st1 := hideSuggestionsDropdown { st with searchText := "" }
      let st2 := { st1 with marker := false }
      let r := setCoordinatesValue st2.started st2.props st2.meta none st2.value
      { st2 with value := r.value }
  | .destroy =>
      { st with typingTimer := none, dropdownOpen := false,
                sessionToken := none, suggestions := none, placesLib := false }

/-- Run a trace of events over an editor state. -/
def runTrace (st : EdState) (tr : List EdEvent) : EdState :=
  tr.foldl applyEv st

/-- A freshly started editor (after `startup`, before any interaction). -/
def initState (props meta : Option Nat) : EdState :=
  { started := true, props := props, meta := meta, value := JSVal.null,
    searchText := "", suggestions := none, dropdownOpen := false,
    selectedIndex := -1, sessionToken := none, nextToken := 0, issued := [],
    typingTimer := none, placesLib := false, marker := false }

/-- The debounced search calls produced by a keystroke sequence
(Editor.js 603-619). Each keystroke is a `(time, textbox text)` pair in
increasing time order; a keystroke clears any pending timer and schedules
`_fetchAutocompleteSuggestions` with its text after `delay` ms, so a
scheduled call fires only if the next keystroke comes no earlier than the
fire time. The result lists the `(fire time, text)` of the fetch calls
that actually fire. -/
def debouncedCalls (delay : Nat) : List (Nat × String) → List (Nat × String)
  | [] => []
  | [k] => [(k.1 + delay, k.2)]
  | k :: k2 :: rest =>
      (if k.1 + delay ≤ k2.1 then [(k.1 + delay, k.2)] else []) ++
        debouncedCalls delay (k2 :: rest)

/-- A keystroke sequence in which every keystroke after the first arrives
strictly within `delay` ms of the previous one. -/
def rapidBurst (delay : Nat) : List (Nat × String) → Bool
  | [] => true
  | [_] => true
  | k :: k2 :: rest => decide (k2.1 < k.1 + delay) && rapidBurst delay (k2 :: rest)

/-! ### Helper lemmas -/

/-- Events other than a search-response arrival and `destroy` never touch
the stored suggestion list (`_clearCoordinates` hides the dropdown but
keeps `_suggestions`). -/
theorem foldl_suggestions_stable (post : List EdEvent) (st : EdState)
    (h : post.all (fun e => !isResolveOrDestroy e) = true) :
    (List.foldl applyEv st post).suggestions = st.suggestions := by
  induction post generalizing st with
  | nil => rfl
  | cons e rest ih =>
      rw [List.all_cons, Bool.and_eq_true] at h
      have hstep : (applyEv st e).suggestions = st.suggestions := by
        cases e with
        | searchIssue input =>
            by_cases hin : input.isEmpty
            · simp [applyEv, hin, hideSuggestionsDropdown]
            · cases htok : st.sessionToken <;> simp [applyEv, hin, htok]
        | searchResolve i res => simp [isResolveOrDestroy] at h
        | clear => simp [applyEv, hideSuggestionsDropdown]
        | destroy => simp [isResolveOrDestroy] at h
      rw [List.foldl_cons, ih _ h.2, hstep]

/-- The resumed continuation of `_fetchAutocompleteSuggestions` stores the
arriving response unconditionally. -/
theorem applyEv_resolve_suggestions (st : EdState) (i : Nat) (res : List String) :
    (applyEv st (EdEvent.searchResolve i res)).suggestions = some res := by
  by_cases h : res.isEmpty <;>
    simp [applyEv, showSuggestionsDropdown, hideSuggestionsDropdown, h]

/-! ### Claim C1 — stale-response suppression -/

/-- C1 counterexample: search "a" is issued, then search "ab"; the
response for "ab" arrives first, then the stale response for "a" arrives.
The code applies the stale response, so the final suggestion list is
"a"'s result, not "ab"'s — the claim that the suggestion list reflects
only the most recently issued search is false. -/
theorem C1_counterexample :
    (runTrace (initState none none)
        [EdEvent.searchIssue "a", EdEvent.searchIssue "ab",
         EdEvent.searchResolve 1 ["B"], EdEvent.searchResolve 0 ["A"]]).suggestions
      = some ["A"] ∧ (["A"] : List String) ≠ (["B"] : List String) :=
  ⟨by decide, by decide⟩

/-- C1 amended: `_fetchAutocompleteSuggestions` has no request counter or
token comparison, so responses are applied in arrival order: after any
trace whose last search-response arrival carries `res` (with no destroy
afterwards), the suggestion list holds `res` — the last response to
arrive wins, even when it belongs to an older request. -/
theorem C1_last_arrival_wins (pre post : List EdEvent) (i : Nat) (res : List String)
    (hpost : post.all (fun e => !isResolveOrDestroy e) = true) :
    (runTrace (initState none none)
        (pre ++ EdEvent.searchResolve i res :: post)).suggestions = some res := by
  have h1 : runTrace (initState none none) (pre ++ EdEvent.searchResolve i res :: post)
      = List.foldl applyEv
          (applyEv (List.foldl applyEv (initState none none) pre)
            (EdEvent.searchResolve i res)) post := by
    rw [runTrace, List.foldl_append, List.foldl_cons]
  rw [h1, foldl_suggestions_stable post _ hpost, applyEv_resolve_suggestions]

/-- C1 witness: a concrete instance of the amended theorem. -/
theorem C1_last_arrival_wins_witness :
    (runTrace (initState none none)
        ([EdEvent.searchIssue "a"] ++ EdEvent.searchResolve 0 ["x"] ::
          [EdEvent.searchIssue "ab"])).suggestions = some ["x"] :=
  C1_last_arrival_wins [EdEvent.searchIssue "a"] [EdEvent.searchIssue "ab"] 0 ["x"]
    (by decide)

/-! ### Claim C2 — clear and the session token -/

/-- C2: `_clearCoordinates` does not null `_sessionToken` (and does not
clear `_suggestions` either), contradicting the claim and the source's
own comments ("reset after place selection", "reused until user clears
the search field"). Concretely: after search "a" (which created token 0),
a response, and a clear, the token is still token 0 and the suggestions
still hold the response; a search after the clear carries the same token
instance 0 that the pre-clear search carried, not a fresh one. -/
theorem C2_token_survives_clear :
    (runTrace (initState none none)
        [EdEvent.searchIssue "a", EdEvent.searchResolve 0 ["hit"],
         EdEvent.clear]).sessionToken = some 0 ∧
    (runTrace (initState none none)
        [EdEvent.searchIssue "a", EdEvent.searchResolve 0 ["hit"],
         EdEvent.clear]).suggestions = some ["hit"] ∧
    (runTrace (initState none none)
        [EdEvent.searchIssue "a", EdEvent.clear,
         EdEvent.searchIssue "b"]).issued = [("a", 0), ("b", 0)] :=
  ⟨by decide, by decide, by decide⟩

/-! ### Claim C3 — marker invariant under render -/

/-- C3 counterexample: a map with an existing marker re-rendered with an
invalid (null) value keeps its marker — `_refreshMarkerLocation` recenters
to the default location with `skipMarker = true` and never removes the
marker, so "a marker handle exists iff the rendered model is valid" is
false. -/
theorem C3_counterexample :
    hasCoordinates JSVal.null none none = false ∧
    (refreshMarkerLocation
        { hasMap := true, markerPos := some (some 1, some 2),
          center := (some 0, some 0), zoom := 5 }
        JSVal.null none none 57 11).markerPos = some (some 1, some 2) :=
  ⟨by decide, by decide⟩

/-- C3 amended: after `_refreshMarkerLocation`, a marker exists iff the
rendered value has coordinates (and the map is initialized) or a marker
already existed: rendering a valid value creates/keeps the marker, but
rendering an invalid value never removes an existing one. -/
theorem C3_marker_after_render (st : MapState) (value : JSVal) (props meta : Option Nat)
    (dla dln : Rat) :
    (refreshMarkerLocation st value props meta dla dln).markerPos.isSome =
      (st.hasMap && hasCoordinates value props meta || st.markerPos.isSome) := by
  cases hm : st.hasMap with
  | false => simp [refreshMarkerLocation, hm]
  | true =>
      cases hc : hasCoordinates value props meta with
      | false => simp [refreshMarkerLocation, setMapLocation, hm, hc]
      | true => simp [refreshMarkerLocation, setMapLocation, hm, hc]

/-! ### Claim C4 — coordinate-validity check -/

/-- C4 counterexample: the delimited string "0,0" is reported as having
coordinates — the string branch of `_hasCoordinates` only counts the
comma-separated parts and never checks numericity or the zero sentinel,
so the claim is false for the delimited format. -/
theorem C4_counterexample :
    hasCoordinates (JSVal.str "0,0") none none = true := by decide

/-- C4 amended: for the structured format the check is as claimed — with
numeric components it is exactly "both non-zero", and a missing, null or
NaN component fails it — but for the delimited format any non-empty
string splitting on a comma into exactly two parts counts as having
coordinates, regardless of numeric or zero-valued components. -/
theorem C4_hasCoordinates_characterization :
    (∀ (a b : Rat) (p m : Option Nat),
        hasCoordinates (JSVal.obj (JSVal.num a) (JSVal.num b)) p m =
          (decide (a ≠ 0) && decide (b ≠ 0))) ∧
    (∀ (v : JSVal) (p m : Option Nat),
        hasCoordinates (JSVal.obj JSVal.null v) p m = false ∧
        hasCoordinates (JSVal.obj v JSVal.null) p m = false ∧
        hasCoordinates (JSVal.obj JSVal.undef v) p m = false ∧
        hasCoordinates (JSVal.obj v JSVal.undef) p m = false ∧
        hasCoordinates (JSVal.obj JSVal.nan v) p m = false ∧
        hasCoordinates (JSVal.obj v JSVal.nan) p m = false) ∧
    (∀ s : String, hasCoordinates (JSVal.str s) none none =
        (!s.isEmpty && decide ((jsSplit s commaChar).length = 2))) := by
  refine ⟨?_, ?_, ?_⟩
  · intro a b p m
    by_cases ha : a = 0 <;> by_cases hb : b = 0 <;>
      simp [hasCoordinates, truthy, isComplexType, isObjectVal, jsToNumber, ha, hb]
  · intro v p m
    refine ⟨?_, ?_, ?_, ?_, ?_, ?_⟩ <;>
      simp [hasCoordinates, truthy, isComplexType, isObjectVal, jsToNumber]
  · intro s
    by_cases hs : s.isEmpty <;>
      simp [hasCoordinates, truthy, isComplexType, isObjectVal, hs]

/-! ### Claim C5 — serialization of an absent value -/

/-- C5 counterexample: on a started delimited-format editor (current
value a plain string, no structured schema metadata), storing the absent
location writes `null`, not the empty string the claim requires. -/
theorem C5_counterexample :
    (setCoordinatesValue true none none none (JSVal.str "1,2")).value = JSVal.null ∧
    JSVal.null ≠ JSVal.str "" :=
  ⟨by decide, by decide⟩

/-- C5 amended: serializing an absent location on a started editor emits
the explicit null pair for the structured format (whether detected from
the current object value or from the schema metadata), but for the
delimited format it stores `null`, not the empty string. -/
theorem C5_absent_serialization :
    (∀ (la ln : JSVal) (p m : Option Nat),
        (setCoordinatesValue true p m none (JSVal.obj la ln)).value =
          JSVal.obj JSVal.null JSVal.null) ∧
    (∀ (cur : JSVal) (n : Nat) (m : Option Nat),
        (setCoordinatesValue true (some (n + 1)) m none cur).value =
          JSVal.obj JSVal.null JSVal.null) ∧
    (∀ s : String,
        (setCoordinatesValue true none none none (JSVal.str s)).value = JSVal.null) := by
  refine ⟨?_, ?_, ?_⟩
  · intro la ln p m
    simp [setCoordinatesValue, isComplexType, truthy, isObjectVal]
  · intro cur n m
    simp [setCoordinatesValue, isComplexType]
  · intro s
    simp [setCoordinatesValue, isComplexType, isObjectVal]

/-! ### Claim C6 — destroy and in-flight callbacks -/

/-- C6 counterexample: a search is issued, the widget is destroyed (the
suggestion list is nulled), and then the in-flight search response
arrives — the resumed continuation has no liveness check and repopulates
the editor's suggestion state after teardown, so "no event is processed
after destroy" is false. -/
theorem C6_counterexample :
    (runTrace (initState none none)
        [EdEvent.searchIssue "a", EdEvent.destroy]).suggestions = none ∧
    (runTrace (initState none none)
        [EdEvent.searchIssue "a", EdEvent.destroy,
         EdEvent.searchResolve 0 ["late"]]).suggestions = some ["late"] :=
  ⟨by decide, by decide⟩

/-- C6 amended: `destroy` can run from any state; it cancels the pending
debounce timer and nulls the session token, suggestion list and cached
library, and running it twice equals running it once — but it does not
prevent in-flight asynchronous callbacks: a search response arriving
after destroy still mutates editor state (there is no liveness flag at
the resume points). -/
theorem C6_destroy_cleanup_without_liveness :
    (∀ st : EdState,
        (applyEv st EdEvent.destroy).typingTimer = none ∧
        (applyEv st EdEvent.destroy).sessionToken = none ∧
        (applyEv st EdEvent.destroy).suggestions = none ∧
        (applyEv st EdEvent.destroy).placesLib = false ∧
        applyEv (applyEv st EdEvent.destroy) EdEvent.destroy
          = applyEv st EdEvent.destroy) ∧
    (∀ (st : EdState) (i : Nat) (res : List String),
        (applyEv (applyEv st EdEvent.destroy)
            (EdEvent.searchResolve i res)).suggestions = some res) := by
  refine ⟨fun st => ⟨rfl, rfl, rfl, rfl, rfl⟩, fun st i res => ?_⟩
  exact applyEv_resolve_suggestions _ i res

/-! ### Claim C7 — debounce -/

/-- C7: in any keystroke burst in which every keystroke arrives strictly
within the debounce delay of the previous one, exactly one search call
fires, carrying the text captured at the last keystroke. -/
theorem C7_debounce_single_call (delay : Nat) (k klast : Nat × String)
    (ks : List (Nat × String))
    (hburst : rapidBurst delay (k :: ks) = true)
    (hlast : (k :: ks).getLast? = some klast) :
    debouncedCalls delay (k :: ks) = [(klast.1 + delay, klast.2)] := by
  induction ks generalizing k with
  | nil =>
      simp [List.getLast?] at hlast
      subst hlast
      rfl
  | cons k2 rest ih =>
      rw [rapidBurst, Bool.and_eq_true, decide_eq_true_eq] at hburst
      rw [List.getLast?_cons_cons] at hlast
      rw [debouncedCalls, if_neg (by omega), List.nil_append]
      exact ih k2 hburst.2 hlast

/-- C7 witness: five keystrokes 0/50/100/150/199 ms apart produce exactly
one fetch call, at 399 ms, with the final text. -/
theorem C7_debounce_single_call_witness :
    debouncedCalls 200
        [(0, "h"), (50, "he"), (100, "hel"), (150, "hell"), (199, "hello")]
      = [(399, "hello")] :=
  C7_debounce_single_call 200 (0, "h") (199, "hello")
    [(50, "he"), (100, "hel"), (150, "hell"), (199, "hello")]
    (by decide) (by decide)

/-! ### Claim C8 — validation contract -/

/-- C8: `isValid` is false exactly when the property is required and the
current value fails the coordinate check; optional properties are always
valid. -/
theorem C8_validity_contract (required : Bool) (value : JSVal) (p m : Option Nat) :
    isValidWidget required value p m = false ↔
      required = true ∧ hasCoordinates value p m = false := by
  cases required <;> simp [isValidWidget]

/-! ### Claim C9 — no value write before startup -/

/-- C9: for every location argument (including the null one) and every
current value, `_setCoordinatesValue` on a not-yet-started widget leaves
the stored value unchanged and logs nothing. -/
theorem C9_no_write_before_startup (p m : Option Nat) (loc : Option Loc) (cur : JSVal) :
    setCoordinatesValue false p m loc cur = ⟨cur, false⟩ := rfl

/-! ### Claim C10 — half-set coordinate guard -/

/-- C10: if a non-null location's latitude or longitude accessor yields
undefined, `_setCoordinatesValue` logs the error and returns without
writing, so the stored value is unchanged and a half-set pair is never
written. -/
theorem C10_half_set_guard (p m : Option Nat) (cur : JSVal) (l : Loc)
    (h : l.latv = none ∨ l.lngv = none) :
    setCoordinatesValue true p m (some l) cur = ⟨cur, true⟩ := by
  cases hla : l.latv with
  | none => cases hln : l.lngv <;> simp [setCoordinatesValue, hla, hln]
  | some a =>
      cases hln : l.lngv with
      | none => simp [setCoordinatesValue, hla, hln]
      | some b =>
          rcases h with h | h
          · rw [hla] at h; exact absurd h (by simp)
          · rw [hln] at h; exact absurd h (by simp)

/-- C10 witness: a location whose latitude accessor yields undefined
leaves a concrete current value untouched and logs the error. -/
theorem C10_half_set_guard_witness :
    setCoordinatesValue true none none (some ⟨none, some 5⟩) (JSVal.str "1,2")
      = ⟨JSVal.str "1,2", true⟩ :=
  C10_half_set_guard none none (JSVal.str "1,2") ⟨none, some 5⟩ (Or.inl rfl)

end GME
